import Mathlib

/-!
Verification of the Cortex alert backend.

Shallow embedding of the Cortex backend (Python, `backend/app/...`) in Lean 4,
with theorems settling the specification claims about the alert predicate,
the evaluator tick, the sector-strategy scan, the upstream quote parsing,
the market streamer and the daily maintenance scheduler.

Prices, thresholds and percentages are modelled as rationals (`ℚ`); the
Python code uses floats, but all claims are about order comparisons and
exact field arithmetic, which the rational model captures.  Python's `None`
becomes `Option`, and Python truthiness of a numeric value `x` is `x ≠ 0`
(with `None` falsy).
-/

namespace Cortex

/-- Enum `AlertType` from `app/models/alert.py`. -/
inductive AlertType where
  | price_above
  | price_below
  | percent_change
  | volume_spike
deriving DecidableEq, Repr

/-- Enum `AlertStatus` from `app/models/alert.py`. -/
inductive AlertStatus where
  | active
  | triggered
  | disabled
deriving DecidableEq, Repr

/-- Method `Alert.check_condition(current_price, previous_price)` from
`app/models/alert.py`.  `previous_price` is optional (Python default `None`);
the `percent_change` branch runs only when `previous_price` is truthy, i.e.
present and nonzero.  All other cases fall through to `False`. -/
def check_condition (alert_type : AlertType) (threshold_value : ℚ)
    (current_price : ℚ) (previous_price : Option ℚ) : Bool :=
  match alert_type with
  | .price_above => current_price ≥ threshold_value
  | .price_below => current_price ≤ threshold_value
  | .percent_change =>
      match previous_price with
      | none => false
      | some pp =>
          if pp = 0 then false
          else
            let percent_change := ((current_price - pp) / pp) * 100
            |percent_change| ≥ threshold_value
  | .volume_spike => false

/-- A quote entry of the `quotes` dictionary built in
`AlertEngine.check_alerts` / `check_sector_strategies`: current price `c`
and previous close `pc`, either of which may be `None` (e.g. after the
HTTP fallback with a sparse vendor payload). -/
structure Quote where
  c : Option ℚ
  pc : Option ℚ
deriving DecidableEq, Repr

/-- The fields of the `Alert` ORM model (`app/models/alert.py`) that the
evaluator reads or writes.  Timestamps are abstract tick counters (`ℕ`). -/
structure Alert where
  id : ℕ
  symbol : String
  alert_type : AlertType
  threshold_value : ℚ
  status : AlertStatus
  is_repeating : Bool
  last_checked_at : Option ℕ
  triggered_at : Option ℕ
  trigger_price : Option ℚ
deriving DecidableEq, Repr

/-- The fields of an in-app `Notification` record that the evaluator
inserts when an alert triggers. -/
structure Notification where
  alert_id : ℕ
  symbol : String
  trigger_price : ℚ
  threshold_value : ℚ
deriving DecidableEq, Repr

/-- Method `AlertEngine._trigger_alert` (`app/services/alert_engine.py`):
stamp `triggered_at` / `trigger_price`, move a non-repeating alert to
`TRIGGERED`, and insert the in-app notification. -/
def trigger_alert (now : ℕ) (current_price : ℚ) (a : Alert) :
    Alert × Notification :=
  ({ a with
      triggered_at := some now
      trigger_price := some current_price
      status := if a.is_repeating then a.status else .triggered },
   { alert_id := a.id
     symbol := a.symbol
     trigger_price := current_price
     threshold_value := a.threshold_value })

/-- One iteration of the `for alert in active_alerts` loop of
`AlertEngine.check_alerts`: look the symbol up in the quotes dictionary
(`continue` when missing), `continue` when `current_price` is falsy
(absent or zero), otherwise evaluate the condition, trigger on success,
and stamp `last_checked_at`. -/
def check_one_alert (now : ℕ) (quotes : String → Option Quote) (a : Alert) :
    Alert × List Notification :=
  match quotes a.symbol with
  | none => (a, [])
  | some q =>
    match q.c with
    | none => (a, [])
    | some c =>
      if c = 0 then (a, [])
      else if check_condition a.alert_type a.threshold_value c q.pc then
        ({ (trigger_alert now c a).1 with last_checked_at := some now },
         [(trigger_alert now c a).2])
      else
        ({ a with last_checked_at := some now }, [])

/-- Effect of one `check_alerts` tick on a single stored alert: the loop
body runs only for alerts the `status == ACTIVE` query returned; every
other alert is untouched. -/
def tick_alert (now : ℕ) (quotes : String → Option Quote) (a : Alert) :
    Alert × List Notification :=
  if a.status = AlertStatus.active then check_one_alert now quotes a
  else (a, [])

/-- Method `AlertEngine.check_alerts` over the whole stored world: each
alert is processed in order and the inserted notifications are collected
in order. -/
def check_alerts : ℕ → (String → Option Quote) → List Alert →
    List Alert × List Notification
  | _, _, [] => ([], [])
  | now, quotes, a :: rest =>
    ((tick_alert now quotes a).1 :: (check_alerts now quotes rest).1,
     (tick_alert now quotes a).2 ++ (check_alerts now quotes rest).2)

/-- A sequence of evaluator ticks applied to one stored alert, each tick
with its own clock value and quotes dictionary. -/
def run_ticks : List (ℕ × (String → Option Quote)) → Alert →
    Alert × List Notification
  | [], a => (a, [])
  | (now, quotes) :: rest, a =>
    ((run_ticks rest (tick_alert now quotes a).1).1,
     (tick_alert now quotes a).2 ++ (run_ticks rest (tick_alert now quotes a).1).2)

/-- An alert is examined by a tick (and hence gets a fresh
`last_checked_at`) when it is active, its symbol is in the quotes
dictionary, and the quote's current price is present and nonzero. -/
def examined (quotes : String → Option Quote) (a : Alert) : Bool :=
  decide (a.status = AlertStatus.active) &&
    (match quotes a.symbol with
     | none => false
     | some q =>
       match q.c with
       | none => false
       | some c => decide (c ≠ 0))

/-- Strategy parameters of the `SectorStrategy` ORM model
(`app/models/sector_strategy.py`). -/
structure SectorStrategy where
  percent_majority : ℚ
  trend_threshold : ℚ
  laggard_threshold : ℚ
deriving DecidableEq, Repr

/-- One entry of the `basket_moves` list built in
`AlertEngine.check_sector_strategies`: symbol, percent change and
current price. -/
structure BasketMove where
  symbol : String
  change : ℚ
  price : ℚ
deriving DecidableEq, Repr

/-- The direction string attached to an emitted divergence. -/
inductive Direction where
  | UP
  | DOWN
deriving DecidableEq, Repr

/-- The `basket_moves` list of `check_sector_strategies`: one move per
basket symbol whose quote is present with truthy (present and nonzero)
`c` and `pc`, with `pct_change = ((c - pc) / pc) * 100`. -/
def basket_moves (stocks : List String) (quotes : String → Option Quote) :
    List BasketMove :=
  stocks.filterMap (fun sym =>
    match quotes sym with
    | none => none
    | some q =>
      match q.c, q.pc with
      | some c, some pc =>
        if c ≠ 0 ∧ pc ≠ 0 then
          some { symbol := sym, change := ((c - pc) / pc) * 100, price := c }
        else none
      | _, _ => none)

/-- The `up_trenders` list: moves at or above `trend_threshold`. -/
def up_trenders (strat : SectorStrategy) (stocks : List String)
    (quotes : String → Option Quote) : List BasketMove :=
  (basket_moves stocks quotes).filter
    (fun s => s.change ≥ strat.trend_threshold)

/-- The `up_percent` share (computed against the full basket size). -/
def up_percent (strat : SectorStrategy) (stocks : List String)
    (quotes : String → Option Quote) : ℚ :=
  ((up_trenders strat stocks quotes).length : ℚ) / (stocks.length : ℚ) * 100

/-- The `down_trenders` list: moves at or below `-trend_threshold`. -/
def down_trenders (strat : SectorStrategy) (stocks : List String)
    (quotes : String → Option Quote) : List BasketMove :=
  (basket_moves stocks quotes).filter
    (fun s => s.change ≤ -strat.trend_threshold)

/-- The `down_percent` share (computed against the full basket size). -/
def down_percent (strat : SectorStrategy) (stocks : List String)
    (quotes : String → Option Quote) : ℚ :=
  ((down_trenders strat stocks quotes).length : ℚ) / (stocks.length : ℚ) * 100

/-- Laggards of the UP branch: moves at or below `laggard_threshold`. -/
def up_laggards (strat : SectorStrategy) (stocks : List String)
    (quotes : String → Option Quote) : List BasketMove :=
  (basket_moves stocks quotes).filter
    (fun s => s.change ≤ strat.laggard_threshold)

/-- Laggards of the DOWN branch: moves at or above
`abs(laggard_threshold)` (the `divergence_positive` magnitude). -/
def down_laggards (strat : SectorStrategy) (stocks : List String)
    (quotes : String → Option Quote) : List BasketMove :=
  (basket_moves stocks quotes).filter
    (fun s => s.change ≥ |strat.laggard_threshold|)

/-- Per-strategy body of `AlertEngine.check_sector_strategies`
(`app/services/alert_engine.py`): skip baskets of size `< 2`, skip on
incomplete basket data, then an `if up_percent ≥ majority / elif
down_percent ≥ majority` cascade, each branch emitting exactly when its
laggard list is a singleton.  Returns the emitted laggard and direction,
or `none` when no notification is inserted. -/
def check_sector_strategy (strat : SectorStrategy) (stocks : List String)
    (quotes : String → Option Quote) : Option (BasketMove × Direction) :=
  if stocks.length < 2 then none
  else if (basket_moves stocks quotes).length ≠ stocks.length then none
  else if up_percent strat stocks quotes ≥ strat.percent_majority then
    match up_laggards strat stocks quotes with
    | [l] => some (l, Direction.UP)
    | _ => none
  else if down_percent strat stocks quotes ≥ strat.percent_majority then
    match down_laggards strat stocks quotes with
    | [l] => some (l, Direction.DOWN)
    | _ => none
  else none

/-- Emission condition exactly as claim C3 words it: complete data,
basket size at least 2, and a plain disjunction of the two
majority-plus-unique-laggard cases. -/
def c3_claimed_condition (strat : SectorStrategy) (stocks : List String)
    (quotes : String → Option Quote) : Prop :=
  (basket_moves stocks quotes).length = stocks.length ∧
  2 ≤ stocks.length ∧
  ((up_percent strat stocks quotes ≥ strat.percent_majority ∧
      (up_laggards strat stocks quotes).length = 1) ∨
   (down_percent strat stocks quotes ≥ strat.percent_majority ∧
      (down_laggards strat stocks quotes).length = 1))

/-- Vendor quote payload parsed by `StockAPIService.get_quote`
(`app/services/stock_api.py`): loose JSON, every field optional. -/
structure QuotePayload where
  c : Option ℚ
  h : Option ℚ
  l : Option ℚ
  o : Option ℚ
  pc : Option ℚ
  t : Option ℤ
deriving DecidableEq, Repr

/-- Validity check of `get_quote`: Python evaluates
`data.get("c") == 0`, and a missing key gives `None`, which is not equal
to `0`; so the payload is rejected exactly when `c` is present and zero,
and every other parsed payload is returned unchanged. -/
def get_quote_check (data : QuotePayload) : Option QuotePayload :=
  if data.c = some 0 then none else some data

/-- The symbol set assembled by `MarketStreamer.get_top_symbols`
(`app/tasks/market_streamer.py`): a Python `set`, modelled as a
`Finset` — start from the market-index set `{SPY, QQQ, IWM}`, `add` the
symbol of every alert in status `ACTIVE`, then `add` every sector-stock
symbol.  A Python `set` carries no usable iteration order, so none is
modelled. -/
def symbol_set (alerts : List Alert) (sector_symbols : List String) :
    Finset String :=
  sector_symbols.foldl (fun acc x => insert x acc)
    (((alerts.filter (fun a => a.status = AlertStatus.active)).map
        (fun a => a.symbol)).foldl (fun acc x => insert x acc)
      ({"SPY", "QQQ", "IWM"} : Finset String))

/-- Truncation `symbol_list = list(symbols)[:50]` of
`get_top_symbols`: CPython enumerates a `set` in implementation-defined
hash order (randomized for strings), so the embedding takes the
enumeration as an explicit parameter — any duplicate-free listing of
the set's elements — and the code keeps its first 50 entries. -/
def get_top_symbols (enum : List String) : List String :=
  enum.take 50

/-- Forty-eight sector symbols: together with the three market indexes
they form a 51-element symbol set, one more than the subscription
limit, so truncation must drop exactly one symbol. -/
def c7_sector_symbols : List String :=
  ["S01", "S02", "S03", "S04", "S05", "S06", "S07", "S08", "S09",
   "S10", "S11", "S12", "S13", "S14", "S15", "S16", "S17", "S18",
   "S19", "S20", "S21", "S22", "S23", "S24", "S25", "S26", "S27",
   "S28", "S29", "S30", "S31", "S32", "S33", "S34", "S35", "S36",
   "S37", "S38", "S39", "S40", "S41", "S42", "S43", "S44", "S45",
   "S46", "S47", "S48"]

/-- The iteration order claim C7 postulates for the 51-element set: the
market indexes first (they are inserted first), then the sector symbols
in insertion order. -/
def c7_insertion_order : List String :=
  ["SPY", "QQQ", "IWM"] ++ c7_sector_symbols

/-- The reversed enumeration of the same 51-element set: equally valid
under CPython's implementation-defined set iteration order. -/
def c7_reversed_enum : List String :=
  c7_insertion_order.reverse

/-- One entry of the `data` list of an inbound websocket frame: the
trade's symbol `s` and price `p`, both optional in the loose JSON. -/
structure Trade where
  s : Option String
  p : Option ℚ
deriving DecidableEq, Repr

/-- An inbound websocket frame: its `type` field and its trade list. -/
structure Frame where
  type : String
  data : List Trade
deriving DecidableEq, Repr

/-- Cache writes performed by the message loop of
`MarketStreamer.connect_and_stream` for one inbound frame: a frame of
type `trade` yields one `update_live_price(symbol, price)` write per
trade entry whose `symbol` and `price` are both truthy
(`if symbol and price:`), in list order; any other frame type yields no
write. -/
def handle_frame (f : Frame) : List (String × ℚ) :=
  if f.type = "trade" then
    f.data.filterMap (fun t =>
      match t.s, t.p with
      | some sym, some price =>
          if sym ≠ "" ∧ price ≠ 0 then some (sym, price) else none
      | _, _ => none)
  else []

/-- The write produced by a single trade entry, spelled out for the
amended claim C8: present, nonempty symbol and present, nonzero price. -/
def trade_write (t : Trade) : Option (String × ℚ) :=
  match t.s, t.p with
  | some sym, some price =>
      if sym ≠ "" ∧ price ≠ 0 then some (sym, price) else none
  | _, _ => none

/-- Calendar date-time at second granularity (the scheduler zeroes the
microseconds), for `DailyMaintenance.run_forever`
(`app/tasks/daily_maintenance.py`). -/
structure DateTime where
  year : ℕ
  month : ℕ
  day : ℕ
  hour : ℕ
  minute : ℕ
  second : ℕ
deriving DecidableEq, Repr

/-- Gregorian leap-year rule, as implemented by Python `datetime`. -/
def is_leap_year (y : ℕ) : Bool :=
  decide (y % 4 = 0) && (decide (y % 100 ≠ 0) || decide (y % 400 = 0))

/-- Number of days in a month, the validity bound Python `datetime`
enforces on the `day` field. -/
def days_in_month (y m : ℕ) : ℕ :=
  if m = 2 then (if is_leap_year y then 29 else 28)
  else if m = 4 ∨ m = 6 ∨ m = 9 ∨ m = 11 then 30
  else 31

/-- Python `datetime.replace(day=d)`: raises `ValueError` (modelled as
`none`) when `d` is not a valid day of the datetime's month. -/
def replace_day (dt : DateTime) (d : ℕ) : Option DateTime :=
  if 1 ≤ d ∧ d ≤ days_in_month dt.year dt.month then some { dt with day := d }
  else none

/-- Lexicographic comparison of datetimes (Python `datetime` order). -/
def dt_le (a b : DateTime) : Bool :=
  if a.year ≠ b.year then a.year < b.year
  else if a.month ≠ b.month then a.month < b.month
  else if a.day ≠ b.day then a.day < b.day
  else if a.hour ≠ b.hour then a.hour < b.hour
  else if a.minute ≠ b.minute then a.minute < b.minute
  else a.second ≤ b.second

/-- Next-run computation of `DailyMaintenance.run_forever` with
`target_time = 06:00`: build `target = now.replace(hour=6, minute=0,
second=0, microsecond=0)` and, when `now >= target`, step to
`target.replace(day=target.day + 1)` — which raises `ValueError`
(modelled as `none`) when `target.day + 1` overflows the month. -/
def next_run_target (now : DateTime) : Option DateTime :=
  let target : DateTime := { now with hour := 6, minute := 0, second := 0 }
  if dt_le target now then replace_day target (target.day + 1)
  else some target

/-- Modelled from the spec: `run_forever` is documented to "schedule to
the next occurrence of the target time" (06:00).  The next occurrence is
today's 06:00 when `now` is strictly before it, and otherwise 06:00 on
the following calendar day, rolling over month and year boundaries. -/
def next_occurrence_spec (now : DateTime) : DateTime :=
  let today : DateTime := { now with hour := 6, minute := 0, second := 0 }
  if dt_le today now then
    if now.day < days_in_month now.year now.month then
      { today with day := now.day + 1 }
    else if now.month < 12 then
      { year := now.year, month := now.month + 1, day := 1,
        hour := 6, minute := 0, second := 0 }
    else
      { year := now.year + 1, month := 1, day := 1,
        hour := 6, minute := 0, second := 0 }
  else today

/-- Concrete quotes dictionary used by witnesses: `AAPL` quoted at
current price 50 with previous close 50, `NVDA` present but with a zero
current price, every other symbol absent. -/
def sample_quotes : String → Option Quote := fun s =>
  if s = "AAPL" then some { c := some 50, pc := some 50 }
  else if s = "NVDA" then some { c := some 0, pc := some 50 }
  else none

/-- Concrete stored world used by witnesses: an active `price_above 100`
alert on `AAPL` (condition false at price 50), an active alert on `MSFT`
(no quote), and an active alert on `NVDA` (zero current price). -/
def sample_world : List Alert :=
  [{ id := 1, symbol := "AAPL", alert_type := .price_above,
     threshold_value := 100, status := .active, is_repeating := false,
     last_checked_at := none, triggered_at := none, trigger_price := none },
   { id := 2, symbol := "MSFT", alert_type := .price_below,
     threshold_value := 100, status := .active, is_repeating := false,
     last_checked_at := none, triggered_at := none, trigger_price := none },
   { id := 3, symbol := "NVDA", alert_type := .price_below,
     threshold_value := 100, status := .active, is_repeating := false,
     last_checked_at := none, triggered_at := none, trigger_price := none }]

end Cortex

/-- C1: with `current > 0` (and `prev_close > 0` for `percent_change`),
`check_condition` matches the spec table: `price_above` iff
`current ≥ threshold`, `price_below` iff `current ≤ threshold`,
`percent_change` iff `|100·(current − prev_close)/prev_close| ≥ threshold`,
and `volume_spike` is always false. -/
theorem c1_check_condition_table (t c pc : ℚ) (p : Option ℚ)
    (hc : 0 < c) (hpc : 0 < pc) :
    (Cortex.check_condition .price_above t c p = true ↔ t ≤ c) ∧
    (Cortex.check_condition .price_below t c p = true ↔ c ≤ t) ∧
    (Cortex.check_condition .percent_change t c (some pc) = true ↔
      t ≤ |100 * (c - pc) / pc|) ∧
    Cortex.check_condition .volume_spike t c p = false := by
  refine ⟨by simp [Cortex.check_condition], by simp [Cortex.check_condition], ?_,
    by simp [Cortex.check_condition]⟩
  have hpc0 : pc ≠ 0 := ne_of_gt hpc
  simp only [Cortex.check_condition, if_neg hpc0, decide_eq_true_eq]
  constructor
  · intro h
    calc t ≤ |(c - pc) / pc * 100| := h
    _ = |100 * (c - pc) / pc| := by ring_nf
  · intro h
    calc t ≤ |100 * (c - pc) / pc| := h
    _ = |(c - pc) / pc * 100| := by ring_nf

/-- Witness for C1 at `threshold = 3`, `current = 10`, `prev_close = 5`. -/
theorem c1_check_condition_table_witness :
    (0 : ℚ) < 10 ∧ (0 : ℚ) < 5 ∧
    ((Cortex.check_condition .price_above 3 10 (some 5) = true ↔ (3 : ℚ) ≤ 10) ∧
     (Cortex.check_condition .price_below 3 10 (some 5) = true ↔ (10 : ℚ) ≤ 3) ∧
     (Cortex.check_condition .percent_change 3 10 (some 5) = true ↔
       (3 : ℚ) ≤ |100 * (10 - 5) / 5|) ∧
     Cortex.check_condition .volume_spike 3 10 (some 5) = false) :=
  ⟨by norm_num, by norm_num,
    c1_check_condition_table 3 10 5 (some 5) (by norm_num) (by norm_num)⟩

/-- C10: `check_condition` for `percent_change` is total outside the
documented precondition: an absent (`None`) or zero `previous_price`
yields `false`, so the division by `previous_price` is never reached with
a zero divisor. -/
theorem c10_percent_change_guard (t c : ℚ) :
    Cortex.check_condition .percent_change t c none = false ∧
    Cortex.check_condition .percent_change t c (some 0) = false := by
  constructor <;> simp [Cortex.check_condition]

/-- C2: a non-repeating alert that is already in status `triggered` is
filtered out by every subsequent evaluator tick: across any sequence of
ticks, whatever prices they supply, its record is unchanged and no
notification is inserted for it. -/
theorem c2_non_repeating_no_retrigger (a : Cortex.Alert)
    (hrep : a.is_repeating = false)
    (htrig : a.status = Cortex.AlertStatus.triggered)
    (ticks : List (ℕ × (String → Option Cortex.Quote))) :
    Cortex.run_ticks ticks a = (a, []) := by
  induction ticks with
  | nil => rfl
  | cons t rest ih =>
    obtain ⟨now, quotes⟩ := t
    have hskip : Cortex.tick_alert now quotes a = (a, []) := by
      simp [Cortex.tick_alert, htrig]
    simp [Cortex.run_ticks, hskip, ih]

/-- Witness for C2: a concrete triggered non-repeating alert survives a
tick whose quote would otherwise satisfy its condition. -/
theorem c2_non_repeating_no_retrigger_witness :
    ({ id := 1, symbol := "AAPL", alert_type := .price_above,
       threshold_value := 100, status := .triggered, is_repeating := false,
       last_checked_at := none, triggered_at := some 0,
       trigger_price := some 150 } : Cortex.Alert).is_repeating = false ∧
    ({ id := 1, symbol := "AAPL", alert_type := .price_above,
       threshold_value := 100, status := .triggered, is_repeating := false,
       last_checked_at := none, triggered_at := some 0,
       trigger_price := some 150 } : Cortex.Alert).status =
      Cortex.AlertStatus.triggered ∧
    Cortex.run_ticks [(7, fun _ => some { c := some 200, pc := some 150 })]
      { id := 1, symbol := "AAPL", alert_type := .price_above,
        threshold_value := 100, status := .triggered, is_repeating := false,
        last_checked_at := none, triggered_at := some 0,
        trigger_price := some 150 } =
      ({ id := 1, symbol := "AAPL", alert_type := .price_above,
         threshold_value := 100, status := .triggered, is_repeating := false,
         last_checked_at := none, triggered_at := some 0,
         trigger_price := some 150 }, []) :=
  ⟨rfl, rfl, c2_non_repeating_no_retrigger _ rfl rfl _⟩

/-- Helper: on an alert whose condition cannot hold under the given
quotes, one tick never branches into `trigger_alert`; the alert is
returned with a fresh `last_checked_at` exactly when it was examined. -/
theorem tick_alert_no_trigger (now : ℕ) (quotes : String → Option Cortex.Quote)
    (a : Cortex.Alert)
    (h : ∀ q, quotes a.symbol = some q → ∀ c, q.c = some c → c ≠ 0 →
      Cortex.check_condition a.alert_type a.threshold_value c q.pc = false) :
    Cortex.tick_alert now quotes a =
      (if Cortex.examined quotes a then { a with last_checked_at := some now }
       else a, []) := by
  by_cases hs : a.status = Cortex.AlertStatus.active
  · cases hq : quotes a.symbol with
    | none => simp [Cortex.tick_alert, Cortex.check_one_alert, Cortex.examined, hs, hq]
    | some q =>
      cases hc : q.c with
      | none => simp [Cortex.tick_alert, Cortex.check_one_alert, Cortex.examined, hs, hq, hc]
      | some c =>
        by_cases hc0 : c = 0
        · simp [Cortex.tick_alert, Cortex.check_one_alert, Cortex.examined,
            hs, hq, hc, hc0]
        · have hcond := h q hq c hc hc0
          simp [Cortex.tick_alert, Cortex.check_one_alert, Cortex.examined,
            hs, hq, hc, hc0, hcond]
  · simp [Cortex.tick_alert, Cortex.examined, hs]

/-- C5: a tick on a world in which no examined alert's condition holds
inserts zero notifications, and every alert is mapped to itself with at
most a fresh `last_checked_at`; the timestamp is refreshed exactly for
the alerts that were examined (active, quote present, current price
present and nonzero), so a skipped alert is left fully unchanged. -/
theorem c5_quiet_tick_frame (now : ℕ) (quotes : String → Option Cortex.Quote)
    (alerts : List Cortex.Alert)
    (h : ∀ a ∈ alerts, ∀ q, quotes a.symbol = some q →
      ∀ c, q.c = some c → c ≠ 0 →
      Cortex.check_condition a.alert_type a.threshold_value c q.pc = false) :
    (Cortex.check_alerts now quotes alerts).2 = [] ∧
    (Cortex.check_alerts now quotes alerts).1 = alerts.map
      (fun a => if Cortex.examined quotes a
        then { a with last_checked_at := some now } else a) := by
  induction alerts with
  | nil => exact ⟨rfl, rfl⟩
  | cons a rest ih =>
    have hrest := ih (fun b hb => h b (List.mem_cons_of_mem a hb))
    have hta := tick_alert_no_trigger now quotes a (h a (List.mem_cons_self a rest))
    refine ⟨?_, ?_⟩
    · show (Cortex.tick_alert now quotes a).2 ++
        (Cortex.check_alerts now quotes rest).2 = []
      rw [hta, hrest.1]
      rfl
    · show (Cortex.tick_alert now quotes a).1 ::
        (Cortex.check_alerts now quotes rest).1 = _
      rw [hta, hrest.2]
      simp

/-- Witness for C5: on the sample world (one failing condition, one
absent quote, one zero price) the tick inserts nothing and refreshes
`last_checked_at` only for the examined alert. -/
theorem c5_quiet_tick_frame_witness :
    (∀ a ∈ Cortex.sample_world, ∀ q, Cortex.sample_quotes a.symbol = some q →
      ∀ c, q.c = some c → c ≠ 0 →
      Cortex.check_condition a.alert_type a.threshold_value c q.pc = false) ∧
    (Cortex.check_alerts 9 Cortex.sample_quotes Cortex.sample_world).2 = [] ∧
    (Cortex.check_alerts 9 Cortex.sample_quotes Cortex.sample_world).1 =
      Cortex.sample_world.map
        (fun a => if Cortex.examined Cortex.sample_quotes a
          then { a with last_checked_at := some 9 } else a) := by
  have hyp : ∀ a ∈ Cortex.sample_world, ∀ q,
      Cortex.sample_quotes a.symbol = some q →
      ∀ c, q.c = some c → c ≠ 0 →
      Cortex.check_condition a.alert_type a.threshold_value c q.pc = false := by
    intro a ha q hq c hc hc0
    simp only [Cortex.sample_world, List.mem_cons, List.not_mem_nil,
      or_false] at ha
    rcases ha with ha | ha | ha <;> subst ha <;>
      simp only [Cortex.sample_quotes] at hq <;> simp at hq
    · subst hq
      simp at hc
      subst hc
      decide
    · subst hq
      simp at hc
      exact absurd hc.symm hc0
  exact ⟨hyp, (c5_quiet_tick_frame 9 _ _ hyp).1, (c5_quiet_tick_frame 9 _ _ hyp).2⟩

/-- Counterexample for C3 as stated: a concrete strategy and basket on
which the claim's plain disjunction holds (down-majority with a unique
DOWN-branch laggard) yet the code emits nothing, because the up-majority
condition also holds and the `elif` never reaches the DOWN branch. -/
theorem c3_counterexample :
    Cortex.c3_claimed_condition
      { percent_majority := 50, trend_threshold := 1, laggard_threshold := -2 }
      ["A", "B", "C", "D"]
      (fun s => if s = "A" then some { c := some 102, pc := some 100 }
        else if s = "B" then some { c := some 101, pc := some 100 }
        else if s = "C" then some { c := some 99, pc := some 100 }
        else if s = "D" then some { c := some 99, pc := some 100 }
        else none) ∧
    Cortex.check_sector_strategy
      { percent_majority := 50, trend_threshold := 1, laggard_threshold := -2 }
      ["A", "B", "C", "D"]
      (fun s => if s = "A" then some { c := some 102, pc := some 100 }
        else if s = "B" then some { c := some 101, pc := some 100 }
        else if s = "C" then some { c := some 99, pc := some 100 }
        else if s = "D" then some { c := some 99, pc := some 100 }
        else none) = none := by
  constructor
  · unfold Cortex.c3_claimed_condition
    simp only [Cortex.up_percent, Cortex.down_percent, Cortex.up_trenders,
      Cortex.down_trenders, Cortex.up_laggards, Cortex.down_laggards,
      Cortex.basket_moves, List.filterMap_cons, List.filterMap_nil,
      String.reduceEq]
    norm_num [List.filter_cons, List.filter_nil]
  · unfold Cortex.check_sector_strategy
    simp only [Cortex.up_percent, Cortex.down_percent, Cortex.up_trenders,
      Cortex.down_trenders, Cortex.up_laggards, Cortex.down_laggards,
      Cortex.basket_moves, List.filterMap_cons, List.filterMap_nil,
      String.reduceEq]
    norm_num [List.filter_cons, List.filter_nil]

/-- C3 (amended): in one strategy evaluation a divergence is emitted for
laggard `l` with direction UP iff the basket has at least 2 symbols, all
of them with usable price data, the up-majority condition holds, and the
UP laggard list is exactly `[l]`; with direction DOWN iff additionally
the up-majority condition fails (else-if priority) while the
down-majority condition holds and the DOWN laggard list is exactly
`[l]`.  Ties (zero or two-plus laggards) suppress emission. -/
theorem c3_divergence_emission (strat : Cortex.SectorStrategy)
    (stocks : List String) (quotes : String → Option Cortex.Quote)
    (l : Cortex.BasketMove) :
    (Cortex.check_sector_strategy strat stocks quotes = some (l, .UP) ↔
      2 ≤ stocks.length ∧
      (Cortex.basket_moves stocks quotes).length = stocks.length ∧
      Cortex.up_percent strat stocks quotes ≥ strat.percent_majority ∧
      Cortex.up_laggards strat stocks quotes = [l]) ∧
    (Cortex.check_sector_strategy strat stocks quotes = some (l, .DOWN) ↔
      2 ≤ stocks.length ∧
      (Cortex.basket_moves stocks quotes).length = stocks.length ∧
      ¬ Cortex.up_percent strat stocks quotes ≥ strat.percent_majority ∧
      Cortex.down_percent strat stocks quotes ≥ strat.percent_majority ∧
      Cortex.down_laggards strat stocks quotes = [l]) := by
  unfold Cortex.check_sector_strategy
  split_ifs with h1 h2 h3 h4
  · have hlen : ¬ 2 ≤ stocks.length := by omega
    simp [hlen]
  · have hlen : 2 ≤ stocks.length := by omega
    simp [hlen, h2]
  · have hlen : 2 ≤ stocks.length := by omega
    rw [not_ne_iff] at h2
    rcases hul : Cortex.up_laggards strat stocks quotes with _ | ⟨x, _ | ⟨y, ys⟩⟩ <;>
      simp [hlen, h2, h3, hul]
  · have hlen : 2 ≤ stocks.length := by omega
    rw [not_ne_iff] at h2
    rcases hdl : Cortex.down_laggards strat stocks quotes with _ | ⟨x, _ | ⟨y, ys⟩⟩ <;>
      simp [hlen, h2, h3, h4, hdl]
  · have hlen : 2 ≤ stocks.length := by omega
    rw [not_ne_iff] at h2
    simp [hlen, h2, h3, h4]

/-- Counterexample for C4 as stated: a payload with the `c` field
missing is not treated as "no data" — `get_quote` returns it unchanged,
because Python's `None == 0` is `False`. -/
theorem c4_counterexample :
    Cortex.get_quote_check
      { c := none, h := none, l := none, o := none,
        pc := some 100, t := none } ≠ none ∧
    Cortex.get_quote_check
      { c := none, h := none, l := none, o := none,
        pc := some 100, t := none } =
      some { c := none, h := none, l := none, o := none,
             pc := some 100, t := none } := by
  decide

/-- C4 (amended): `get_quote` returns absence exactly for a payload
whose `c` field is present and equal to 0; every other parsed payload —
including one with `c` missing — is returned unchanged. -/
theorem c4_zero_price_is_no_data (data : Cortex.QuotePayload) :
    (Cortex.get_quote_check data = none ↔ data.c = some 0) ∧
    (data.c = some 0 ∨ Cortex.get_quote_check data = some data) := by
  unfold Cortex.get_quote_check
  by_cases h : data.c = some 0 <;> simp [h]

/-- Helper: membership in a fold of set insertions is membership in
the seed or in the inserted list. -/
theorem mem_foldl_insert (l : List String) (init : Finset String) (s : String) :
    s ∈ l.foldl (fun acc x => insert x acc) init ↔ s ∈ init ∨ s ∈ l := by
  induction l generalizing init with
  | nil => simp
  | cons x xs ih =>
    rw [List.foldl_cons, ih]
    simp only [Finset.mem_insert, List.mem_cons]
    tauto

/-- Helper: the symbol set contains exactly the market indexes, the
active alert symbols and the sector symbols. -/
theorem mem_symbol_set (alerts : List Cortex.Alert)
    (sector_symbols : List String) (s : String) :
    s ∈ Cortex.symbol_set alerts sector_symbols ↔
      s = "SPY" ∨ s = "QQQ" ∨ s = "IWM" ∨
      (∃ a ∈ alerts, a.status = Cortex.AlertStatus.active ∧ a.symbol = s) ∨
      s ∈ sector_symbols := by
  unfold Cortex.symbol_set
  rw [mem_foldl_insert, mem_foldl_insert]
  simp only [Finset.mem_insert, Finset.mem_singleton, List.mem_map,
    List.mem_filter, decide_eq_true_eq]
  constructor
  · intro h
    rcases h with hh | h
    · rcases hh with hx | hy
      · rcases hx with h | h | h
        · exact Or.inl h
        · exact Or.inr (Or.inl h)
        · exact Or.inr (Or.inr (Or.inl h))
      · obtain ⟨a, hc, hsym⟩ := hy
        exact Or.inr (Or.inr (Or.inr (Or.inl ⟨a, hc.1, hc.2, hsym⟩)))
    · exact Or.inr (Or.inr (Or.inr (Or.inr h)))
  · intro h
    rcases h with h | h | h | h | h
    · exact Or.inl (Or.inl (Or.inl h))
    · exact Or.inl (Or.inl (Or.inr (Or.inl h)))
    · exact Or.inl (Or.inl (Or.inr (Or.inr h)))
    · obtain ⟨a, ha, hst, hsym⟩ := h
      exact Or.inl (Or.inr ⟨a, ⟨ha, hst⟩, hsym⟩)
    · exact Or.inr h

set_option maxRecDepth 4096 in
/-- Counterexample for C7 as stated: with 51 symbols in the set (three
market indexes plus 48 sector symbols) the reversed enumeration is just
as valid an iteration of the Python `set` as the claimed insertion
order, yet its first 50 entries do not contain `SPY`, while the claimed
insertion-order truncation does — so the subscription set does not
equal the union "truncated to the first 50 elements in insertion
order". -/
theorem c7_counterexample :
    Cortex.c7_reversed_enum.Nodup ∧
    Cortex.c7_reversed_enum.toFinset =
      Cortex.symbol_set [] Cortex.c7_sector_symbols ∧
    "SPY" ∈ Cortex.symbol_set [] Cortex.c7_sector_symbols ∧
    "SPY" ∈ Cortex.c7_insertion_order.take 50 ∧
    "SPY" ∉ Cortex.get_top_symbols Cortex.c7_reversed_enum := by
  refine ⟨by decide, by decide, by decide, by decide, by decide⟩

/-- C7 (amended): for every iteration order of the symbol set — any
duplicate-free enumeration of the union of the market indexes
`{SPY, QQQ, IWM}`, the active alert symbols and the sector symbols —
the subscription list `list(symbols)[:50]` has at most 50 entries, each
belonging to that union, and whenever the union has at most 50 elements
it contains exactly the union.  Which 50 symbols survive truncation of
a larger union is implementation-defined, not insertion order. -/
theorem c7_subscription_bound (alerts : List Cortex.Alert)
    (sector_symbols : List String) (enum : List String)
    (hnd : enum.Nodup)
    (henum : enum.toFinset = Cortex.symbol_set alerts sector_symbols) :
    (Cortex.get_top_symbols enum).length ≤ 50 ∧
    (∀ s, s ∈ Cortex.get_top_symbols enum →
      (s = "SPY" ∨ s = "QQQ" ∨ s = "IWM" ∨
       (∃ a ∈ alerts, a.status = Cortex.AlertStatus.active ∧ a.symbol = s) ∨
       s ∈ sector_symbols)) ∧
    ((Cortex.symbol_set alerts sector_symbols).card ≤ 50 →
      ∀ s, (s ∈ Cortex.get_top_symbols enum ↔
        (s = "SPY" ∨ s = "QQQ" ∨ s = "IWM" ∨
         (∃ a ∈ alerts, a.status = Cortex.AlertStatus.active ∧ a.symbol = s) ∨
         s ∈ sector_symbols))) := by
  have hmem : ∀ s, s ∈ enum ↔ s ∈ Cortex.symbol_set alerts sector_symbols := by
    intro s
    rw [← henum, List.mem_toFinset]
  refine ⟨?_, ?_, ?_⟩
  · unfold Cortex.get_top_symbols
    rw [List.length_take]
    exact min_le_left _ _
  · intro s hs
    have h1 : s ∈ enum := List.take_subset _ _ hs
    exact (mem_symbol_set alerts sector_symbols s).mp ((hmem s).mp h1)
  · intro hcard s
    have hlen : enum.length ≤ 50 := by
      have hc := List.toFinset_card_of_nodup hnd
      rw [henum] at hc
      omega
    unfold Cortex.get_top_symbols
    rw [List.take_of_length_le hlen, hmem s]
    exact mem_symbol_set alerts sector_symbols s

/-- Witness for C7 on a 7-symbol world (the three sample alerts on
`AAPL`, `MSFT`, `NVDA`, one sector symbol `TSLA`) with a concrete
enumeration of the set. -/
theorem c7_subscription_bound_witness :
    (["TSLA", "SPY", "QQQ", "IWM", "AAPL", "MSFT", "NVDA"] :
      List String).Nodup ∧
    (["TSLA", "SPY", "QQQ", "IWM", "AAPL", "MSFT", "NVDA"] :
      List String).toFinset =
      Cortex.symbol_set Cortex.sample_world ["TSLA"] ∧
    (Cortex.get_top_symbols
      ["TSLA", "SPY", "QQQ", "IWM", "AAPL", "MSFT", "NVDA"]).length ≤ 50 :=
  ⟨by decide, by decide,
    (c7_subscription_bound Cortex.sample_world ["TSLA"]
      ["TSLA", "SPY", "QQQ", "IWM", "AAPL", "MSFT", "NVDA"]
      (by decide) (by decide)).1⟩

/-- Counterexample for C8 as stated: a `trade` frame containing the pair
`(AAPL, 0)` produces no cache write at all — the loop guard
`if symbol and price:` drops a zero price — while the claim requires one
write per `(s, p)` pair in the list. -/
theorem c8_counterexample :
    Cortex.handle_frame
      { type := "trade", data := [{ s := some "AAPL", p := some 0 }] } = [] ∧
    Cortex.handle_frame
      { type := "trade", data := [{ s := some "AAPL", p := some 0 }] } ≠
      [("AAPL", (0 : ℚ))] := by
  decide

/-- C8 (amended): a `trade` frame yields exactly one write per embedded
trade whose symbol is present and nonempty and whose price is present
and nonzero, in list order; a frame of any other type yields no write. -/
theorem c8_trade_frame_writes (f : Cortex.Frame) (ts : List Cortex.Trade) :
    Cortex.handle_frame { type := "trade", data := ts } =
      ts.filterMap Cortex.trade_write ∧
    (∀ w, w ∈ Cortex.handle_frame f ↔
      f.type = "trade" ∧ ∃ t ∈ f.data, Cortex.trade_write t = some w) := by
  constructor
  · rfl
  · intro w
    by_cases hf : f.type = "trade"
    · simp only [Cortex.handle_frame, hf, if_true, List.mem_filterMap,
        Cortex.trade_write, true_and]
    · simp [Cortex.handle_frame, hf]

/-- C9: at 07:00 on 2025-01-31 (a last day of month) the scheduler's
next-run computation calls `replace(day=32)` and raises `ValueError`
(modelled as `none`), while the spec's next occurrence of 06:00 is
2025-02-01 06:00; on mid-month datetimes the two agree (strictly before
06:00 it yields today's 06:00, at or after it the next day's 06:00). -/
theorem c9_last_day_of_month_bug :
    Cortex.next_run_target
      { year := 2025, month := 1, day := 31, hour := 7,
        minute := 0, second := 0 } = none ∧
    Cortex.next_occurrence_spec
      { year := 2025, month := 1, day := 31, hour := 7,
        minute := 0, second := 0 } =
      { year := 2025, month := 2, day := 1, hour := 6,
        minute := 0, second := 0 } ∧
    Cortex.next_run_target
      { year := 2025, month := 1, day := 30, hour := 7,
        minute := 0, second := 0 } =
      some { year := 2025, month := 1, day := 31, hour := 6,
             minute := 0, second := 0 } ∧
    Cortex.next_run_target
      { year := 2025, month := 1, day := 30, hour := 5,
        minute := 0, second := 0 } =
      some { year := 2025, month := 1, day := 30, hour := 6,
             minute := 0, second := 0 } := by
  refine ⟨?_, ?_, ?_, ?_⟩ <;> decide
